import Mathlib

/-!
Verification development for the Planfix MCP server (a Python client that
exposes the Planfix REST API as MCP tools).  The definitions below are a
shallow embedding of `src/planfix_api.py`, `src/planfix_server.py` and
`src/utils.py`: Python dictionaries decoded from JSON become a `Json`
inductive, Python exceptions become an error inductive threaded through
`Except`, and every `try/except` block becomes an explicit match on the
`Except` value.  Network effects are modelled by passing the outcome of the
single HTTP call (`HttpOutcome`) as an explicit argument.
-/

/-- A decoded JSON value, as returned by `response.json()` in
`planfix_api.py`.  Python dicts are association lists here. -/
inductive Json where
  | null : Json
  | bool : Bool → Json
  | num : Int → Json
  | str : String → Json
  | arr : List Json → Json
  | obj : List (String × Json) → Json
  deriving Repr

/-- Python `d.get(key)` on a decoded JSON dict: `some v` when the key is
present, `none` otherwise (and `none` on non-dicts, where Python would raise
`AttributeError`; callers model that raise explicitly). -/
def Json.getKey (j : Json) (key : String) : Option Json :=
  match j with
  | .obj fields => fields.lookup key
  | _ => none

/-- Python `d.get(key, default)` on a decoded JSON dict. -/
def Json.getD (j : Json) (key : String) (default : Json) : Json :=
  match j.getKey key with
  | some v => v
  | none => default

/-- Display of a JSON value inside an f-string (abstraction of Python's
`str()` on a decoded value; only the string case is ever exercised by the
theorems below). -/
def Json.pyStr : Json → String
  | .null => "None"
  | .bool true => "True"
  | .bool false => "False"
  | .num n => toString n
  | .str s => s
  | .arr _ => "[...]"
  | .obj _ => "{...}"

/-- The Python exceptions that can travel through the client.
`planfixAuth`, `planfixNotFound`, `planfixValidation` and `planfix`
correspond to `PlanfixAuthError`, `PlanfixNotFoundError`,
`PlanfixValidationError` and the base `PlanfixError` of `planfix_api.py`
(`PlanfixValidationError` is referenced by `planfix_server.py`; its class
declaration lives in a revision of `planfix_api.py` not present under
`src/`, and is modelled from the spec's error taxonomy as a fourth typed
kind).  `httpxTimeout`/`httpxConnect` are the transport-library exceptions,
and `other` stands for any other Python exception. -/
inductive PyError where
  | planfixAuth (msg : String)
  | planfixNotFound (msg : String)
  | planfixValidation (msg : String)
  | planfix (msg : String)
  | httpxTimeout (msg : String)
  | httpxConnect (msg : String)
  | other (msg : String)
  deriving Repr, DecidableEq

/-- Python `str(e)` on an exception: its message. -/
def PyError.message : PyError → String
  | .planfixAuth m => m
  | .planfixNotFound m => m
  | .planfixValidation m => m
  | .planfix m => m
  | .httpxTimeout m => m
  | .httpxConnect m => m
  | .other m => m

/-- The outcome of the single `client.request(...)` call performed by
`PlanfixAPI._request`: either an HTTP response (with status code, raw text
body, and the decoded JSON body when `response.json()` succeeds), or one of
the transport exceptions. -/
inductive HttpOutcome where
  | response (status : Nat) (text : String) (json : Option Json)
  | timeout (msg : String)
  | connectError (msg : String)
  | raised (e : PyError)
  deriving Repr

/-- The body of the `try:` block of `PlanfixAPI._request`
(planfix_api.py lines 56-84): status-code dispatch after the call.  The
`error_data` extraction for statuses >= 400 mirrors
`error_json.get("message", error_data)` with the inner `except: pass`
(a non-dict or undecodable body leaves `error_data = response.text`).
When `response.json()` fails on a < 400 response, Python raises a decode
error caught by the outer `except Exception`; its message is abstracted. -/
def requestTryBody : HttpOutcome → Except PyError Json
  | .timeout m => .error (.httpxTimeout m)
  | .connectError m => .error (.httpxConnect m)
  | .raised e => .error e
  | .response status text json? =>
    if status == 401 then .error (.planfixAuth "Неверные учётные данные API")
    else if status == 403 then .error (.planfixAuth "Недостаточно прав доступа")
    else if status == 404 then .error (.planfixNotFound "Ресурс не найден")
    else if status ≥ 400 then
      let errorData :=
        match json? with
        | some j =>
          match j.getKey "message" with
          | some v => v.pyStr
          | none => text
        | none => text
      .error (.planfix ("HTTP " ++ toString status ++ ": " ++ errorData))
    else
      match json? with
      | some j => .ok j
      | none => .error (.other ("JSON decode error: " ++ text))

/-- `PlanfixAPI._request` (planfix_api.py lines 46-92): the `try:` body
followed by the `except` chain.  The chain is matched in source order:
`httpx.TimeoutException`, then `httpx.ConnectError`, then the catch-all
`except Exception as e` which re-raises
`PlanfixError(f"Ошибка API запроса: {e}")`.  Note that the typed
`PlanfixAuthError` / `PlanfixNotFoundError` / `PlanfixError` raised inside
the `try:` body are themselves `Exception`s and are therefore captured and
re-wrapped by that final clause. -/
def planfixRequest (o : HttpOutcome) : Except PyError Json :=
  match requestTryBody o with
  | .ok j => .ok j
  | .error (.httpxTimeout _) => .error (.planfix "Превышено время ожидания запроса")
  | .error (.httpxConnect _) => .error (.planfix "Не удалось подключиться к Planfix API")
  | .error e => .error (.planfix ("Ошибка API запроса: " ++ e.message))

/-- `PlanfixAPI.test_connection` (planfix_api.py lines 474-482):
`try: await self._request("POST", "contact/list"); return True`
`except Exception: return False`.  The probe outcome is the argument. -/
def test_connection (o : HttpOutcome) : Except PyError Bool :=
  match planfixRequest o with
  | .ok _ => .ok true
  | .error _ => .ok false

/-- Python truthiness of an `Optional[int]` argument (`if project_id:`):
true exactly when the value is present and non-zero. -/
def optIntTruthy : Option Int → Bool
  | some n => n != 0
  | none => false

/-- Python truthiness of an `Optional[str]` argument (`if deadline:`):
true exactly when the value is present and non-empty. -/
def optStrTruthy : Option String → Bool
  | some s => s != ""
  | none => false

/-- Python truthiness of a `str` argument (`if query:`). -/
def strTruthy (s : String) : Bool := s != ""

/-- One HTTP request as handed to `PlanfixAPI._request`: the verb, the
endpoint path, and the JSON payload (the `data` argument; `none` when the
operation passes no body). -/
structure WireRequest where
  method : String
  endpoint : String
  data : Option Json := none
  deriving Repr

/-- The request body built by `PlanfixAPI.create_task`
(planfix_api.py lines 105-116): `name`/`description`/`priority` always,
then `project`, `assignee`, `endDatePlan` each appended only when the
corresponding argument is truthy (`if project_id:` etc.). -/
def create_task_body (name description : String) (project_id assignee_id : Option Int)
    (priority : String) (deadline : Option String) : List (String × Json) :=
  [("name", Json.str name), ("description", Json.str description),
   ("priority", Json.str priority)]
  ++ (if optIntTruthy project_id then
        [("project", Json.obj [("id", Json.num (project_id.getD 0))])] else [])
  ++ (if optIntTruthy assignee_id then
        [("assignee", Json.obj [("id", Json.num (assignee_id.getD 0))])] else [])
  ++ (if optStrTruthy deadline then
        [("endDatePlan", Json.str (deadline.getD ""))] else [])

/-- The request issued by `PlanfixAPI.create_task`: `POST task`. -/
def create_task_request (name description : String) (project_id assignee_id : Option Int)
    (priority : String) (deadline : Option String) : WireRequest :=
  ⟨"POST", "task",
    some (Json.obj (create_task_body name description project_id assignee_id priority deadline))⟩

/-- The request issued by `PlanfixAPI.get_task` (planfix_api.py line 131):
`self._request("POST", f"task/{task_id}")` — a single-entity read sent with
the POST verb and no body. -/
def get_task_request (task_id : Int) : WireRequest :=
  ⟨"POST", "task/" ++ toString task_id, none⟩

/-- The params dict built by `PlanfixAPI.search_tasks`
(planfix_api.py lines 153-162). -/
def search_tasks_body (query : String) (project_id assignee_id : Option Int)
    (status : String) : List (String × Json) :=
  [("fields", Json.str "id,name,status,assignee,project,endDatePlan,priority")]
  ++ (if strTruthy query then [("name", Json.str query)] else [])
  ++ (if optIntTruthy project_id then [("project", Json.num (project_id.getD 0))] else [])
  ++ (if optIntTruthy assignee_id then [("assignee", Json.num (assignee_id.getD 0))] else [])
  ++ (if status != "all" then [("status", Json.str status)] else [])

/-- The request issued by `PlanfixAPI.search_tasks`: `POST task/list`. -/
def search_tasks_request (query : String) (project_id assignee_id : Option Int)
    (status : String) : WireRequest :=
  ⟨"POST", "task/list", some (Json.obj (search_tasks_body query project_id assignee_id status))⟩

/-- The request issued by `PlanfixAPI.update_task_status`
(planfix_api.py lines 187-192): `POST task/{task_id}`. -/
def update_task_status_request (task_id : Int) (status comment : String) : WireRequest :=
  ⟨"POST", "task/" ++ toString task_id,
    some (Json.obj ([("status", Json.obj [("key", Json.str status)])]
      ++ (if strTruthy comment then [("comment", Json.str comment)] else [])))⟩

/-- The request issued by `PlanfixAPI.add_task_comment`
(planfix_api.py lines 195-198): `POST task/{task_id}/comment`. -/
def add_task_comment_request (task_id : Int) (comment : String) : WireRequest :=
  ⟨"POST", "task/" ++ toString task_id ++ "/comment",
    some (Json.obj [("comment", Json.str comment)])⟩

/-- The request issued by `PlanfixAPI.create_project`
(planfix_api.py lines 210-220): `POST project`, with `owner`/`client`
appended only when truthy. -/
def create_project_request (name description : String)
    (owner_id client_id : Option Int) : WireRequest :=
  ⟨"POST", "project",
    some (Json.obj ([("name", Json.str name), ("description", Json.str description)]
      ++ (if optIntTruthy owner_id then
            [("owner", Json.obj [("id", Json.num (owner_id.getD 0))])] else [])
      ++ (if optIntTruthy client_id then
            [("client", Json.obj [("id", Json.num (client_id.getD 0))])] else [])))⟩

/-- The request issued by `PlanfixAPI.get_projects` (planfix_api.py line 231):
`POST project/list` with no body. -/
def get_projects_request : WireRequest := ⟨"POST", "project/list", none⟩

/-- The request issued by `PlanfixAPI.add_contact`
(planfix_api.py lines 257-265): `POST contact`.  The body dict always
carries all five keys — `email`, `phone`, `company` and `position` are sent
as empty strings when the caller leaves them unset. -/
def add_contact_request (name email phone company position : String) : WireRequest :=
  ⟨"POST", "contact",
    some (Json.obj [("name", Json.str name), ("email", Json.str email),
      ("phone", Json.str phone), ("company", Json.str company),
      ("position", Json.str position)])⟩

/-- The request issued by `PlanfixAPI.get_contacts`
(planfix_api.py lines 279-280): `POST contact/list`; the caller-supplied
limit is forwarded in the params dict. -/
def get_contacts_request (limit : Int) : WireRequest :=
  ⟨"POST", "contact/list",
    some (Json.obj [("limit", Json.num limit), ("orderBy", Json.str "dateCreate"),
      ("order", Json.str "desc")])⟩

/-- The request issued by `PlanfixAPI.get_analytics_report`
(planfix_api.py lines 305-312): `POST analytics/report`. -/
def get_analytics_report_request (type_ dateFrom dateTo groupBy : String) : WireRequest :=
  ⟨"POST", "analytics/report",
    some (Json.obj [("type", Json.str type_), ("dateFrom", Json.str dateFrom),
      ("dateTo", Json.str dateTo), ("groupBy", Json.str groupBy)])⟩

/-- The request issued by `PlanfixAPI.get_contact` (planfix_api.py line 325):
`self._request("GET", f"contact/{contact_id}")` — the one operation using
the GET verb. -/
def get_contact_request (contact_id : Int) : WireRequest :=
  ⟨"GET", "contact/" ++ toString contact_id, none⟩

/-- The request issued by `PlanfixAPI.search_contacts`
(planfix_api.py lines 344-348): `POST contact/list`. -/
def search_contacts_request (query : String) (limit : Int) : WireRequest :=
  ⟨"POST", "contact/list",
    some (Json.obj ([("limit", Json.num limit)]
      ++ (if strTruthy query then [("query", Json.str query)] else [])))⟩

/-- The request issued by `PlanfixAPI.list_employees`: `POST user/list`. -/
def list_employees_request (limit : Int) : WireRequest :=
  ⟨"POST", "user/list", some (Json.obj [("limit", Json.num limit)])⟩

/-- The request issued by `PlanfixAPI.list_files`
(planfix_api.py lines 391-397): `POST file/list`. -/
def list_files_request (limit : Int) (task_id project_id : Option Int) : WireRequest :=
  ⟨"POST", "file/list",
    some (Json.obj ([("limit", Json.num limit)]
      ++ (if optIntTruthy task_id then [("taskId", Json.num (task_id.getD 0))] else [])
      ++ (if optIntTruthy project_id then [("projectId", Json.num (project_id.getD 0))] else [])))⟩

/-- The request issued by `PlanfixAPI.list_comments`
(planfix_api.py lines 417-423): `POST comment/list`. -/
def list_comments_request (limit : Int) (task_id project_id : Option Int) : WireRequest :=
  ⟨"POST", "comment/list",
    some (Json.obj ([("limit", Json.num limit)]
      ++ (if optIntTruthy task_id then [("taskId", Json.num (task_id.getD 0))] else [])
      ++ (if optIntTruthy project_id then [("projectId", Json.num (project_id.getD 0))] else [])))⟩

/-- The request issued by `PlanfixAPI.list_reports`: `POST report/list`. -/
def list_reports_request (limit : Int) : WireRequest :=
  ⟨"POST", "report/list", some (Json.obj [("limit", Json.num limit)])⟩

/-- The request issued by `PlanfixAPI.list_processes`: `POST process/list`. -/
def list_processes_request (limit : Int) : WireRequest :=
  ⟨"POST", "process/list", some (Json.obj [("limit", Json.num limit)])⟩

/-- The probe request issued by `PlanfixAPI.test_connection`
(planfix_api.py line 478): `POST contact/list` with no body. -/
def test_connection_request : WireRequest := ⟨"POST", "contact/list", none⟩

namespace Models

/-- The legacy `Task` model of `models.py` (lines 661-671), restricted to
the fields the client ever sets.  Fields the remote payload may omit are
`Option`; string fields filled with `.get(key, "")` defaults are plain
`String`. -/
structure Task where
  id : Int
  name : String := ""
  description : String := ""
  status : Option String := none
  assignee : Option String := none
  project : Option String := none
  priority : Option String := none
  deadline : Option String := none
  deriving Repr, DecidableEq

/-- The legacy `Contact` model of `models.py` (lines 684-697), restricted to
the fields the client ever sets.  Fields that `get_contacts` leaves at the
pydantic default (`None`) are modelled with the `""` default here; no claim
inspects them. -/
structure Contact where
  id : Int
  name : String := ""
  email : String := ""
  phone : String := ""
  company : String := ""
  position : String := ""
  midname : String := ""
  lastname : String := ""
  description : String := ""
  is_company : Bool := false
  created_date : String := ""
  deriving Repr, DecidableEq

end Models

/-- Python `entity_data["id"]`: `KeyError` when absent (or `TypeError` on a
non-dict), and a pydantic validation failure on a non-integer value; both
surface as plain exceptions, modelled as `PyError.other`. -/
def getIdInt (j : Json) : Except PyError Int :=
  match j.getKey "id" with
  | some (.num n) => .ok n
  | some _ => .error (.other "pydantic ValidationError: int expected for id")
  | none => .error (.other "KeyError: id")

/-- Python `entity_data.get(key, "")` feeding a pydantic `str` field:
default `""` when the key is absent; a present non-string value fails
pydantic construction (modelled as `PyError.other`). -/
def strGetD (j : Json) (key : String) : Except PyError String :=
  match j.getKey key with
  | none => .ok ""
  | some (.str s) => .ok s
  | some _ => .error (.other "pydantic ValidationError: str expected")

/-- Python `entity_data.get(key)` feeding a pydantic `Optional[str]` field. -/
def getStrOpt (j : Json) (key : String) : Except PyError (Option String) :=
  match j.getKey key with
  | none => .ok none
  | some Json.null => .ok none
  | some (.str s) => .ok (some s)
  | some _ => .error (.other "pydantic ValidationError: str expected")

/-- Python `entity_data.get(k1, {}).get(k2)` feeding `Optional[str]`:
missing outer key falls back to `{}`; a non-dict (including `null`) outer
value makes the second `.get` raise `AttributeError`. -/
def nestedGetStrOpt (j : Json) (k1 k2 : String) : Except PyError (Option String) :=
  match j.getD k1 (Json.obj []) with
  | Json.obj fs => getStrOpt (Json.obj fs) k2
  | _ => .error (.other "AttributeError: get on non-dict")

/-- Python `entity_data.get(k1, {}).get(k2, "")` feeding a `str` field. -/
def nestedGetStrD (j : Json) (k1 k2 : String) : Except PyError String :=
  match j.getD k1 (Json.obj []) with
  | Json.obj fs =>
    match (Json.obj fs).getKey k2 with
    | none => .ok ""
    | some Json.null => .ok ""
    | some (.str s) => .ok s
    | some _ => .error (.other "pydantic ValidationError: str expected")
  | _ => .error (.other "AttributeError: get on non-dict")

/-- Python `entity_data.get(key, False)` feeding a pydantic bool field. -/
def getBoolD (j : Json) (key : String) : Except PyError Bool :=
  match j.getKey key with
  | none => .ok false
  | some Json.null => .ok false
  | some (.bool b) => .ok b
  | some _ => .error (.other "pydantic ValidationError: bool expected")

/-- The phone extraction of `PlanfixAPI.search_contacts` / `get_contact`:
`contact_data.get("phones", [{}])[0].get("number", "") if
contact_data.get("phones") else ""`.  A falsy `phones` value (absent, null,
empty list, …) yields `""`; a non-empty list takes the first element's
`number`; other truthy values raise on subscripting / attribute access. -/
def phonesFirstNumber (j : Json) : Except PyError String :=
  match j.getKey "phones" with
  | none => .ok ""
  | some Json.null => .ok ""
  | some (Json.arr []) => .ok ""
  | some (Json.str "") => .ok ""
  | some (Json.bool false) => .ok ""
  | some (Json.num 0) => .ok ""
  | some (Json.obj []) => .ok ""
  | some (Json.arr (p :: _)) =>
    match p with
    | Json.obj _ =>
      match p.getKey "number" with
      | none => .ok ""
      | some Json.null => .ok ""
      | some (.str s) => .ok s
      | some _ => .error (.other "pydantic ValidationError: str expected")
    | _ => .error (.other "AttributeError: get on non-dict")
  | some _ => .error (.other "TypeError: phones not subscriptable")

/-- One iteration of the `for task_data in task_list:` loop of
`PlanfixAPI.search_tasks` (planfix_api.py lines 168-177): build one legacy
`Task` from one payload element. -/
def taskOfJson (j : Json) : Except PyError Models.Task := do
  let id ← getIdInt j
  let name ← strGetD j "name"
  let status ← nestedGetStrOpt j "status" "name"
  let assignee ← nestedGetStrOpt j "assignee" "name"
  let project ← nestedGetStrOpt j "project" "name"
  let priority ← getStrOpt j "priority"
  let deadline ← getStrOpt j "endDatePlan"
  pure { id := id, name := name, status := status, assignee := assignee,
         project := project, priority := priority, deadline := deadline }

/-- One iteration of the `for contact_data in contact_list:` loop of
`PlanfixAPI.get_contacts` (planfix_api.py lines 284-292). -/
def contactOfJson (j : Json) : Except PyError Models.Contact := do
  let id ← getIdInt j
  let name ← strGetD j "name"
  let email ← strGetD j "email"
  let phone ← strGetD j "phone"
  let company ← strGetD j "company"
  let position ← strGetD j "position"
  pure { id := id, name := name, email := email, phone := phone,
         company := company, position := position }

/-- One iteration of the element loop of `PlanfixAPI.search_contacts`
(planfix_api.py lines 352-365). -/
def searchContactOfJson (j : Json) : Except PyError Models.Contact := do
  let id ← getIdInt j
  let name ← strGetD j "name"
  let midname ← strGetD j "midname"
  let lastname ← strGetD j "lastname"
  let email ← strGetD j "email"
  let phone ← phonesFirstNumber j
  let company ← strGetD j "company"
  let position ← strGetD j "position"
  let description ← strGetD j "description"
  let is_company ← getBoolD j "isCompany"
  let created_date ← nestedGetStrD j "createdDate" "datetime"
  pure { id := id, name := name, midname := midname, lastname := lastname,
         email := email, phone := phone, company := company, position := position,
         description := description, is_company := is_company,
         created_date := created_date }

/-- A Python `for` loop that builds one schema instance per element,
propagating the first exception (the loops of every list operation in
`planfix_api.py`). -/
def exMapM (f : α → Except PyError β) : List α → Except PyError (List β)
  | [] => .ok []
  | x :: xs => do
    let y ← f x
    let ys ← exMapM f xs
    pure (y :: ys)

/-- The shared list-extraction shape of every list operation in
`planfix_api.py`: `entity_list = result.get(NEST_KEY, result.get("data", []))`
followed by the element loop.  A missing nesting key silently falls back to
`"data"`, and a missing `"data"` key to the empty list — no error is raised
for an absent key.  Iterating a non-sequence value raises (`PyError.other`);
an empty string iterates zero times. -/
def extractEntityList (nestKey : String) (conv : Json → Except PyError α)
    (result : Json) : Except PyError (List α) :=
  match result with
  | Json.obj _ =>
    match result.getD nestKey (result.getD "data" (Json.arr [])) with
    | Json.arr xs => exMapM conv xs
    | Json.str "" => .ok []
    | _ => .error (.other "TypeError: not iterable")
  | _ => .error (.other "AttributeError: get on non-dict")

/-- The response processing of `PlanfixAPI.search_tasks`
(planfix_api.py lines 166-179): nesting key `"tasks"`. -/
def search_tasks_list (result : Json) : Except PyError (List Models.Task) :=
  extractEntityList "tasks" taskOfJson result

/-- The response processing of `PlanfixAPI.get_contacts`
(planfix_api.py lines 282-294): nesting key `"contacts"`. -/
def get_contacts_list (result : Json) : Except PyError (List Models.Contact) :=
  extractEntityList "contacts" contactOfJson result

/-- The response processing of `PlanfixAPI.search_contacts`
(planfix_api.py lines 350-367): nesting key `"contacts"`. -/
def search_contacts_list (result : Json) : Except PyError (List Models.Contact) :=
  extractEntityList "contacts" searchContactOfJson result

/-- `PlanfixAPI.search_tasks` end to end, given the transport outcome of its
`POST task/list` call: a raised transport error propagates unchanged; a
returned payload goes through the element loop.  Note the function takes no
limit argument at all. -/
def search_tasks (query : String) (project_id assignee_id : Option Int) (status : String)
    (response : Except PyError Json) : Except PyError (List Models.Task) :=
  match response with
  | .error e => .error e
  | .ok result => search_tasks_list result

/-- `PlanfixAPI.get_contacts` end to end: the caller's `limit` goes into the
request params (see `get_contacts_request`) and is not applied to the
returned list. -/
def get_contacts (limit : Int) (response : Except PyError Json) :
    Except PyError (List Models.Contact) :=
  match response with
  | .error e => .error e
  | .ok result => get_contacts_list result

/-- `PlanfixAPI.search_contacts` end to end. -/
def search_contacts (query : String) (limit : Int) (response : Except PyError Json) :
    Except PyError (List Models.Contact) :=
  match response with
  | .error e => .error e
  | .ok result => search_contacts_list result

/-- `PaginationMixin` (planfix_server.py lines 33-37): the declared
pagination contract of every list tool, after pydantic validation
(`offset >= 0`, `1 <= limit <= 100`, `page` absent or `>= 1`). -/
structure PaginationMixin where
  offset : Int := 0
  limit : Int := 20
  page : Option Int := none
  deriving Repr, DecidableEq

/-- `PaginationMixin.get_offset` (planfix_server.py lines 39-43):
`(page - 1) * limit` when `page` is not `None`, else `offset`. -/
def PaginationMixin.get_offset (p : PaginationMixin) : Int :=
  match p.page with
  | some pg => (pg - 1) * p.limit
  | none => p.offset

/-- `TaskListRequest` (planfix_server.py lines 46-60). -/
structure TaskListRequest extends PaginationMixin where
  project_id : Option Int := none
  assignee_id : Option Int := none
  status : String := "active"
  deriving Repr, DecidableEq

/-- `ContactListRequest` (planfix_server.py lines 63-67). -/
structure ContactListRequest extends PaginationMixin where
  is_company : Bool := false
  deriving Repr, DecidableEq

/-- `FileListRequest` (planfix_server.py lines 96-104). -/
structure FileListRequest extends PaginationMixin where
  task_id : Option Int := none
  project_id : Option Int := none
  deriving Repr, DecidableEq

/-- `EntityByIdRequest` (planfix_server.py lines 79-82). -/
structure EntityByIdRequest where
  id : Int
  fields : Option String := none
  deriving Repr, DecidableEq

/-- One line of the detail list assembled by `validate_input`
(planfix_server.py line 133): `f"Поле '{field}': {message}"`. -/
def fieldErr (field msg : String) : String :=
  "Поле '" ++ field ++ "': " ++ msg

/-- The pydantic bound violations of the `PaginationMixin` fields, in field
declaration order, with pydantic's standard bound messages. -/
def paginationErrors (offset limit : Int) (page : Option Int) : List String :=
  (if offset < 0 then [fieldErr "offset" "Input should be greater than or equal to 0"] else [])
  ++ (if limit < 1 then [fieldErr "limit" "Input should be greater than or equal to 1"] else [])
  ++ (if limit > 100 then [fieldErr "limit" "Input should be less than or equal to 100"] else [])
  ++ (match page with
      | some p =>
        if p < 1 then [fieldErr "page" "Input should be greater than or equal to 1"] else []
      | none => [])

/-- The pydantic `ge=1` violation of an optional ID field. -/
def optIdErrors (field : String) : Option Int → List String
  | some n =>
    if n < 1 then [fieldErr field "Input should be greater than or equal to 1"] else []
  | none => []

/-- The `validate_status` field validator of `TaskListRequest`
(planfix_server.py lines 54-60). -/
def statusErrors (status : String) : List String :=
  if ["active", "completed", "all"].contains status then []
  else [fieldErr "status" "Value error, Status must be one of: active, completed, all"]

/-- The message built by `validate_input` (planfix_server.py line 135) from
a non-empty list of field errors. -/
def validationMessage (errs : List String) : String :=
  "Ошибка валидации входных данных:\n" ++ String.intercalate "\n" errs

/-- All pydantic field errors of a `TaskListRequest`, in field declaration
order (`PaginationMixin` fields first, then the subclass fields). -/
def taskListRequestErrors (project_id assignee_id : Option Int) (status : String)
    (offset limit : Int) (page : Option Int) : List String :=
  paginationErrors offset limit page ++ optIdErrors "project_id" project_id
    ++ optIdErrors "assignee_id" assignee_id ++ statusErrors status

/-- `validate_input(request_data, TaskListRequest)`
(planfix_server.py lines 124-135 with the model of lines 46-60): all field
errors are collected; any violation raises `PlanfixValidationError` with the
assembled message, otherwise the validated model is returned. -/
def validate_input_task_list (project_id assignee_id : Option Int) (status : String)
    (offset limit : Int) (page : Option Int) : Except PyError TaskListRequest :=
  if taskListRequestErrors project_id assignee_id status offset limit page = [] then
    .ok { offset := offset, limit := limit, page := page,
          project_id := project_id, assignee_id := assignee_id, status := status }
  else
    .error (.planfixValidation (validationMessage
      (taskListRequestErrors project_id assignee_id status offset limit page)))

/-- `validate_input(request_data, ContactListRequest)`. -/
def validate_input_contact_list (offset limit : Int) (page : Option Int)
    (is_company : Bool) : Except PyError ContactListRequest :=
  if paginationErrors offset limit page = [] then
    .ok { offset := offset, limit := limit, page := page, is_company := is_company }
  else
    .error (.planfixValidation (validationMessage (paginationErrors offset limit page)))

/-- `validate_input(request_data, ListRequest)` — `ListRequest`
(planfix_server.py lines 85-93) adds nothing to `PaginationMixin`. -/
def validate_input_list (offset limit : Int) (page : Option Int) :
    Except PyError PaginationMixin :=
  if paginationErrors offset limit page = [] then
    .ok { offset := offset, limit := limit, page := page }
  else
    .error (.planfixValidation (validationMessage (paginationErrors offset limit page)))

/-- All pydantic field errors of a `FileListRequest` (also the shape of
`CommentListRequest`, which has the same fields and bounds). -/
def fileListRequestErrors (offset limit : Int) (page : Option Int)
    (task_id project_id : Option Int) : List String :=
  paginationErrors offset limit page ++ optIdErrors "task_id" task_id
    ++ optIdErrors "project_id" project_id

/-- `validate_input(request_data, FileListRequest)` (also used for
`CommentListRequest`). -/
def validate_input_file_list (offset limit : Int) (page : Option Int)
    (task_id project_id : Option Int) : Except PyError FileListRequest :=
  if fileListRequestErrors offset limit page task_id project_id = [] then
    .ok { offset := offset, limit := limit, page := page,
          task_id := task_id, project_id := project_id }
  else
    .error (.planfixValidation (validationMessage
      (fileListRequestErrors offset limit page task_id project_id)))

/-- `validate_input(request_data, ContactDetailsRequest)`
(planfix_server.py lines 70-77): `contact_id >= 1`. -/
def validate_input_contact_details (contact_id : Int) : Except PyError Int :=
  if contact_id < 1 then
    .error (.planfixValidation (validationMessage
      [fieldErr "contact_id" "Input should be greater than or equal to 1"]))
  else .ok contact_id

/-- `validate_input(request_data, EntityByIdRequest)`: `id >= 1`, free-form
optional `fields`. -/
def validate_input_entity_by_id (id : Int) (fields : Option String) :
    Except PyError EntityByIdRequest :=
  if id < 1 then
    .error (.planfixValidation (validationMessage
      [fieldErr "id" "Input should be greater than or equal to 1"]))
  else .ok { id := id, fields := fields }

/-- Python `s.lower()`. -/
def pyLower (s : String) : String := s.map Char.toLower

/-- Python `pat in s` substring containment (for non-empty `pat`):
`s.splitOn pat` has more than one part exactly when `pat` occurs in `s`. -/
def containsSub (s pat : String) : Bool := (s.splitOn pat).length != 1

/-- `format_error` (utils.py lines 310-329): substring-match the error
message to pick a localized user-facing line, falling back to a generic
line with the optional context. -/
def format_error (error : PyError) (context : String := "") : String :=
  let errorMsg := error.message
  if containsSub errorMsg "401" || containsSub (pyLower errorMsg) "unauthorized" then
    "❌ Ошибка авторизации. Проверьте API ключи Planfix."
  else if containsSub errorMsg "403" || containsSub (pyLower errorMsg) "forbidden" then
    "❌ Доступ запрещён. Недостаточно прав для выполнения операции."
  else if containsSub errorMsg "404" || containsSub (pyLower errorMsg) "not found" then
    "❌ Объект не найден. Проверьте ID и попробуйте снова."
  else if containsSub (pyLower errorMsg) "timeout" then
    "❌ Превышено время ожидания. Попробуйте позже."
  else if containsSub (pyLower errorMsg) "connection" then
    "❌ Ошибка соединения с Planfix. Проверьте интернет-подключение."
  else if context != "" then
    "❌ Ошибка при " ++ context ++ ": " ++ errorMsg
  else
    "❌ Произошла ошибка: " ++ errorMsg

/-- The shape of a tool's `except` ladder in `planfix_server.py`:
`valPrefixed` = `except PlanfixValidationError` returning
`f"Ошибка валидации: {e}"` then catch-alls via `format_error` (list_tasks,
list_contacts); `valPlain` = `except PlanfixValidationError` returning
`f"{str(e)}"` then catch-all via `format_error` (get_contact_details,
list_employees, list_files, list_comments, list_reports, list_processes);
`allFormat` = a single `except Exception` via `format_error` (get_comment,
get_file, get_project, get_user). -/
inductive CatchStyle where
  | valPrefixed
  | valPlain
  | allFormat
  deriving Repr, DecidableEq

/-- Run a tool's `except` ladder on the outcome of its `try:` body: every
exception kind is converted to a returned string and nothing is re-raised. -/
def applyCatches (style : CatchStyle) (context : String) :
    Except PyError String → Except PyError String
  | .ok s => .ok s
  | .error e =>
    match style, e with
    | .valPrefixed, .planfixValidation m => .ok ("Ошибка валидации: " ++ m)
    | .valPlain, .planfixValidation m => .ok m
    | _, e2 => .ok (format_error e2 context)

/-- The shared `try:` body + `except` ladder of every tool in
`planfix_server.py`: validate the inputs, bail out when the module-level
`api` handle is still `None`, invoke the operation layer, render the
result.  The operation call and the success rendering are passed in as
functions; the call's outcome (`Except`) carries any exception raised below
the tool surface. -/
def toolInvoke {V α : Type} (style : CatchStyle) (context : String)
    (validated : Except PyError V) (apiInit : Bool)
    (call : V → Except PyError α) (render : V → α → String) : Except PyError String :=
  applyCatches style context (do
    let v ← validated
    if !apiInit then return "API не инициализирован"
    let x ← call v
    return render v x)

/-- `json.dumps(items, indent=2, ensure_ascii=False)` for a list, given the
per-element rendering: one array element per entity, in list order, joined
with `",\n"` (the 2-space member indentation lives inside each element's
rendering; `"[]"` for the empty list). -/
def jsonDumpList (items : List String) : String :=
  match items with
  | [] => "[]"
  | _ => "[\n" ++ String.intercalate ",\n" items ++ "\n]"

/-- The success-path serialization of the `list_tasks` tool
(planfix_server.py lines 285-296): the JSON dump of the returned tasks (one
element per task, in input order, rendered by `dump` which abstracts
`json.dumps(task.model_dump(), ...)`), followed by exactly one suffix —
the more-results hint when `len(tasks) >= limit` (naming the page when one
was supplied, else the offset), otherwise the `"Всего найдено"` footer with
the exact count. -/
def list_tasks_render (dump : Models.Task → String) (v : TaskListRequest)
    (tasks : List Models.Task) : String :=
  let result := jsonDumpList (tasks.map dump)
  if v.limit ≤ (tasks.length : Int) then
    result ++ "\n\nПоказаны " ++ toString tasks.length ++ " результатов (лимит: "
      ++ toString v.limit ++ ")"
      ++ (if optIntTruthy v.page then ", страница " ++ toString (v.page.getD 0)
          else ", смещение " ++ toString v.toPaginationMixin.get_offset)
      ++ ". Используйте параметры offset/page для получения следующих результатов."
  else
    result ++ "\n\nВсего найдено: " ++ toString tasks.length ++ " задач(и)"

/-- The `list_tasks` tool (planfix_server.py lines 197-312). -/
def list_tasks (project_id assignee_id : Option Int) (status : String)
    (offset limit : Int) (page : Option Int) (apiInit : Bool)
    (call : TaskListRequest → Except PyError (List Models.Task))
    (dump : Models.Task → String) : Except PyError String :=
  toolInvoke .valPrefixed "поиске задач"
    (validate_input_task_list project_id assignee_id status offset limit page)
    apiInit call (list_tasks_render dump)

/-- The `list_contacts` tool (planfix_server.py lines 325-388); the success
rendering (JSON dump plus pagination footer, same shape as `list_tasks`) is
abstracted as `render`. -/
def list_contacts (offset limit : Int) (page : Option Int) (is_company : Bool)
    (apiInit : Bool) (call : ContactListRequest → Except PyError (List Models.Contact))
    (render : ContactListRequest → List Models.Contact → String) : Except PyError String :=
  toolInvoke .valPrefixed "поиске контактов"
    (validate_input_contact_list offset limit page is_company) apiInit call render

/-- The `get_contact_details` tool (planfix_server.py lines 390-492). -/
def get_contact_details (contact_id : Int) (apiInit : Bool)
    (call : Int → Except PyError Models.Contact)
    (render : Models.Contact → String) : Except PyError String :=
  toolInvoke .valPlain "получении контакта"
    (validate_input_contact_details contact_id) apiInit call (fun _ c => render c)

/-- The `get_comment` tool (planfix_server.py lines 494-505). -/
def get_comment {α : Type} (comment_id : Int) (fields : Option String) (apiInit : Bool)
    (call : EntityByIdRequest → Except PyError α) (render : α → String) :
    Except PyError String :=
  toolInvoke .allFormat "получении комментария"
    (validate_input_entity_by_id comment_id fields) apiInit call (fun _ x => render x)

/-- The `get_file` tool (planfix_server.py lines 507-518). -/
def get_file {α : Type} (file_id : Int) (fields : Option String) (apiInit : Bool)
    (call : EntityByIdRequest → Except PyError α) (render : α → String) :
    Except PyError String :=
  toolInvoke .allFormat "получении файла"
    (validate_input_entity_by_id file_id fields) apiInit call (fun _ x => render x)

/-- The `get_project` tool (planfix_server.py lines 520-531). -/
def get_project {α : Type} (project_id : Int) (fields : Option String) (apiInit : Bool)
    (call : EntityByIdRequest → Except PyError α) (render : α → String) :
    Except PyError String :=
  toolInvoke .allFormat "получении проекта"
    (validate_input_entity_by_id project_id fields) apiInit call (fun _ x => render x)

/-- The `get_user` tool (planfix_server.py lines 533-544). -/
def get_user {α : Type} (user_id : Int) (fields : Option String) (apiInit : Bool)
    (call : EntityByIdRequest → Except PyError α) (render : α → String) :
    Except PyError String :=
  toolInvoke .allFormat "получении пользователя"
    (validate_input_entity_by_id user_id fields) apiInit call (fun _ x => render x)

/-- The `list_employees` tool (planfix_server.py lines 546-633). -/
def list_employees {α : Type} (offset limit : Int) (page : Option Int) (apiInit : Bool)
    (call : PaginationMixin → Except PyError (List α))
    (render : PaginationMixin → List α → String) : Except PyError String :=
  toolInvoke .valPlain "получении сотрудников"
    (validate_input_list offset limit page) apiInit call render

/-- The `list_files` tool (planfix_server.py lines 635-748). -/
def list_files {α : Type} (offset limit : Int) (page : Option Int)
    (task_id project_id : Option Int) (apiInit : Bool)
    (call : FileListRequest → Except PyError (List α))
    (render : FileListRequest → List α → String) : Except PyError String :=
  toolInvoke .valPlain "получении файлов"
    (validate_input_file_list offset limit page task_id project_id) apiInit call render

/-- The `list_comments` tool (planfix_server.py lines 750-867). -/
def list_comments {α : Type} (offset limit : Int) (page : Option Int)
    (task_id project_id : Option Int) (apiInit : Bool)
    (call : FileListRequest → Except PyError (List α))
    (render : FileListRequest → List α → String) : Except PyError String :=
  toolInvoke .valPlain "получении комментариев"
    (validate_input_file_list offset limit page task_id project_id) apiInit call render

/-- The `list_reports` tool (planfix_server.py lines 869-954). -/
def list_reports {α : Type} (offset limit : Int) (page : Option Int) (apiInit : Bool)
    (call : PaginationMixin → Except PyError (List α))
    (render : PaginationMixin → List α → String) : Except PyError String :=
  toolInvoke .valPlain "получении отчётов"
    (validate_input_list offset limit page) apiInit call render

/-- The `list_processes` tool (planfix_server.py lines 956-1042). -/
def list_processes {α : Type} (offset limit : Int) (page : Option Int) (apiInit : Bool)
    (call : PaginationMixin → Except PyError (List α))
    (render : PaginationMixin → List α → String) : Except PyError String :=
  toolInvoke .valPlain "получении процессов"
    (validate_input_list offset limit page) apiInit call render

/-- Python `int(s)` on a string: optional surrounding whitespace, optional
sign, decimal digits; `none` models the raised `ValueError` (digit-group
underscores are not modelled; no claim exercises them). -/
def parsePyInt (s : String) : Option Int :=
  let t := ((s.data.dropWhile Char.isWhitespace).reverse.dropWhile
    Char.isWhitespace).reverse
  let signed : Bool × List Char :=
    match t with
    | '-' :: rest => (true, rest)
    | '+' :: rest => (false, rest)
    | _ => (false, t)
  match signed with
  | (neg, core) =>
    if core.isEmpty then none
    else if core.all Char.isDigit then
      let n : Int := core.foldl (fun acc c => acc * 10 + ((c.toNat : Int) - 48)) 0
      some (if neg then -n else n)
    else none

/-- The `task://{task_id}` resource handler `get_task_details`
(planfix_server.py lines 1113-1163): parse the id (non-numeric input or an
id `< 1` raises `ValueError`, caught by the inner `except ValueError` which
returns the invalid-ID message before any API call); then call
`api.get_task` and render (the `hasattr`-probing success formatting is
abstracted as `render`); the outer `except Exception` converts any raised
error via `format_error`. -/
def get_task_details (task_id : String)
    (call : Int → Except PyError Models.Task)
    (render : Models.Task → String) : String :=
  match parsePyInt task_id with
  | none => "Неверный ID задачи: " ++ task_id
  | some n =>
    if n < 1 then "Неверный ID задачи: " ++ task_id
    else
      match call n with
      | .ok task => render task
      | .error e => "Ошибка получения задачи: " ++ format_error e

/-- The keys of a request's JSON body, in insertion order. -/
def bodyKeys (w : WireRequest) : List String :=
  match w.data with
  | some (Json.obj fields) => fields.map Prod.fst
  | _ => []

/-- Whether a request's JSON body carries the given key. -/
def bodyHasKey (w : WireRequest) (k : String) : Bool := (bodyKeys w).contains k

/-- Whether any top-level value of a request's JSON body is `null`. -/
def bodyHasNull (w : WireRequest) : Bool :=
  match w.data with
  | some (Json.obj fields) =>
    fields.any (fun kv => match kv.2 with | Json.null => true | _ => false)
  | _ => false

/-- The concrete contact-list payload used against claim C6: the remote
returns two contacts although the caller asked for `limit = 1`. -/
def twoContactsPayload : Json :=
  Json.obj [("contacts",
    Json.arr [Json.obj [("id", Json.num 1)], Json.obj [("id", Json.num 2)]])]

/-- The fixed mock of the C7 scenario: a successful search returning two
tasks under a limit of 20. -/
def scenarioTasks : List Models.Task :=
  [{ id := 1, name := "Задача 1" }, { id := 2, name := "Задача 2" }]

/-- Claim C1 (code bug evidence): at the failing input — an HTTP 401
response — `_request` does not raise the typed authentication error: the
final `except Exception` clause captures the `PlanfixAuthError` raised
inside the `try:` body and re-raises it as the generic
`PlanfixError("Ошибка API запроса: …")`.  Likewise 404 loses its typed
not-found kind.  The timeout and connection branches do carry the claimed
fixed messages, and a < 400 response returns the decoded JSON body. -/
theorem C1_typed_errors_rewrapped :
    planfixRequest (.response 401 "Unauthorized" none)
      = .error (.planfix "Ошибка API запроса: Неверные учётные данные API")
    ∧ (∀ m, planfixRequest (.response 401 "Unauthorized" none)
        ≠ .error (.planfixAuth m))
    ∧ planfixRequest (.response 404 "Not Found" none)
      = .error (.planfix "Ошибка API запроса: Ресурс не найден")
    ∧ (∀ m, planfixRequest (.response 404 "Not Found" none)
        ≠ .error (.planfixNotFound m))
    ∧ planfixRequest (.timeout "Timeout")
      = .error (.planfix "Превышено время ожидания запроса")
    ∧ planfixRequest (.connectError "Connection failed")
      = .error (.planfix "Не удалось подключиться к Planfix API")
    ∧ planfixRequest (.response 200 "{}" (some (Json.obj [])))
      = .ok (Json.obj []) := by
  have h401 : planfixRequest (.response 401 "Unauthorized" none)
      = .error (.planfix "Ошибка API запроса: Неверные учётные данные API") := rfl
  have h404 : planfixRequest (.response 404 "Not Found" none)
      = .error (.planfix "Ошибка API запроса: Ресурс не найден") := rfl
  refine ⟨h401, ?_, h404, ?_, rfl, rfl, rfl⟩
  · intro m h
    rw [h401] at h
    exact PyError.noConfusion (Except.error.inj h)
  · intro m h
    rw [h404] at h
    exact PyError.noConfusion (Except.error.inj h)

/-- Claim C2: `get_offset` derives the offset as `(page − 1) × limit`
whenever `page` is set (regardless of any supplied `offset`, i.e. page
takes precedence), so `page=p, limit=l` yields the same offset as
`offset=(p−1)*l, limit=l`; with no page the explicit offset is used. -/
theorem C2_page_offset_equivalence (p l o : Int) (hp : 1 ≤ p) (hl1 : 1 ≤ l)
    (hl2 : l ≤ 100) :
    PaginationMixin.get_offset { offset := o, limit := l, page := some p }
      = PaginationMixin.get_offset { offset := (p - 1) * l, limit := l, page := none }
    ∧ PaginationMixin.get_offset { offset := o, limit := l, page := some p } = (p - 1) * l
    ∧ (∀ q : PaginationMixin, q.page = none → q.get_offset = q.offset) := by
  refine ⟨rfl, rfl, ?_⟩
  intro q hq
  simp [PaginationMixin.get_offset, hq]

/-- Witness for C2 at `page=3, limit=10` against a conflicting
`offset=999`: the derived offset is `(3−1)×10 = 20`. -/
theorem C2_page_offset_equivalence_witness :
    PaginationMixin.get_offset { offset := 999, limit := 10, page := some 3 }
      = (3 - 1) * 10 :=
  (C2_page_offset_equivalence 3 10 999 (by norm_num) (by norm_num) (by norm_num)).2.1

/-- Claim C8 (counterexample): `get_task` is a single-entity-by-id read but
issues its request with POST, not GET (planfix_api.py line 131). -/
theorem C8_counterexample_get_task_is_post :
    (get_task_request 123).method = "POST" ∧ (get_task_request 123).method ≠ "GET" :=
  ⟨rfl, by decide⟩

/-- Claim C8 (amended): every list, search, create and update operation
issues POST; of the single-entity-by-id reads, `get_contact` issues GET
while `get_task` issues POST. -/
theorem C8_amended_http_verbs :
    (∀ cid : Int, (get_contact_request cid).method = "GET")
    ∧ (∀ tid : Int, (get_task_request tid).method = "POST")
    ∧ (∀ n d pid aid pr dl, (create_task_request n d pid aid pr dl).method = "POST")
    ∧ (∀ q pid aid st, (search_tasks_request q pid aid st).method = "POST")
    ∧ (∀ tid st c, (update_task_status_request tid st c).method = "POST")
    ∧ (∀ tid c, (add_task_comment_request tid c).method = "POST")
    ∧ (∀ n d oid cid, (create_project_request n d oid cid).method = "POST")
    ∧ get_projects_request.method = "POST"
    ∧ (∀ n e ph c po, (add_contact_request n e ph c po).method = "POST")
    ∧ (∀ l, (get_contacts_request l).method = "POST")
    ∧ (∀ t df dt g, (get_analytics_report_request t df dt g).method = "POST")
    ∧ (∀ q l, (search_contacts_request q l).method = "POST")
    ∧ (∀ l, (list_employees_request l).method = "POST")
    ∧ (∀ l t pid, (list_files_request l t pid).method = "POST")
    ∧ (∀ l t pid, (list_comments_request l t pid).method = "POST")
    ∧ (∀ l, (list_reports_request l).method = "POST")
    ∧ (∀ l, (list_processes_request l).method = "POST")
    ∧ test_connection_request.method = "POST" :=
  ⟨fun _ => rfl, fun _ => rfl, fun _ _ _ _ _ _ => rfl, fun _ _ _ _ => rfl,
   fun _ _ _ => rfl, fun _ _ => rfl, fun _ _ _ _ => rfl, rfl,
   fun _ _ _ _ _ => rfl, fun _ => rfl, fun _ _ _ _ => rfl, fun _ _ => rfl,
   fun _ => rfl, fun _ _ _ => rfl, fun _ _ _ => rfl, fun _ => rfl, fun _ => rfl, rfl⟩

/-- Claim C10: `test_connection` returns a boolean for every probe outcome —
`True` exactly when the probe call returns decoded JSON, `False` on every
raised error — and never lets an exception escape. -/
theorem C10_test_connection_total (o : HttpOutcome) :
    (∀ j, planfixRequest o = .ok j → test_connection o = .ok true)
    ∧ (∀ e, planfixRequest o = .error e → test_connection o = .ok false) := by
  constructor
  · intro j h
    simp [test_connection, h]
  · intro e h
    simp [test_connection, h]

/-- Witness for C10: a timed-out probe yields `False`; a 200 probe returning
JSON yields `True`. -/
theorem C10_test_connection_witness :
    test_connection (.timeout "Timeout") = .ok false
    ∧ test_connection (.response 200 "{}" (some (Json.obj []))) = .ok true :=
  ⟨(C10_test_connection_total (.timeout "Timeout")).2
      (.planfix "Превышено время ожидания запроса") rfl,
   (C10_test_connection_total (.response 200 "{}" (some (Json.obj [])))).1
      (Json.obj []) rfl⟩

/-- A successful `exMapM` run returns exactly one output element per input
element (the Python loops append exactly once per iteration). -/
theorem exMapM_length {α β : Type} (f : α → Except PyError β) :
    ∀ (xs : List α) (ys : List β), exMapM f xs = .ok ys → ys.length = xs.length := by
  intro xs
  induction xs with
  | nil =>
    intro ys h
    simp only [exMapM] at h
    cases h
    rfl
  | cons x xs ih =>
    intro ys h
    cases hfx : f x with
    | error e => simp [exMapM, hfx, Bind.bind, Except.bind] at h
    | ok y =>
      cases hrest : exMapM f xs with
      | error e => simp [exMapM, hfx, hrest, Bind.bind, Except.bind] at h
      | ok zs =>
        simp [exMapM, hfx, hrest, Bind.bind, Except.bind, pure, Except.pure] at h
        rw [← h]
        simp [ih zs hrest]

/-- Claim C5 (counterexample): a contact-list payload without the
`"contacts"` nesting key raises nothing — both `get_contacts` and
`search_contacts` fall back and return the empty list. -/
theorem C5_counterexample_missing_key_no_error :
    get_contacts_list (Json.obj []) = .ok []
    ∧ search_contacts_list (Json.obj []) = .ok []
    ∧ (∀ e, get_contacts_list (Json.obj []) ≠ .error e) := by
  refine ⟨rfl, rfl, ?_⟩
  intro e h
  rw [show get_contacts_list (Json.obj []) = .ok [] from rfl] at h
  exact Except.noConfusion h

/-- Claim C5 (amended): when the `"contacts"` nesting key is absent the
client raises no validation error; it silently falls back to the `"data"`
key, and to the empty list when that is absent too. -/
theorem C5_amended_missing_key_fallback (fields : List (String × Json))
    (hmiss : (Json.obj fields).getKey "contacts" = none) :
    ((Json.obj fields).getKey "data" = none →
      get_contacts_list (Json.obj fields) = .ok []
      ∧ search_contacts_list (Json.obj fields) = .ok [])
    ∧ (∀ xs, (Json.obj fields).getKey "data" = some (Json.arr xs) →
      get_contacts_list (Json.obj fields) = exMapM contactOfJson xs
      ∧ search_contacts_list (Json.obj fields) = exMapM searchContactOfJson xs) := by
  constructor
  · intro hdata
    unfold get_contacts_list search_contacts_list extractEntityList
    simp [Json.getD, hmiss, hdata, exMapM]
  · intro xs hdata
    unfold get_contacts_list search_contacts_list extractEntityList
    simp [Json.getD, hmiss, hdata]

/-- Witness for C5 (amended) at a payload carrying only a `"data"` list:
the `"data"` fallback is taken and no error is raised. -/
theorem C5_amended_missing_key_fallback_witness :
    get_contacts_list (Json.obj [("data", Json.arr [])])
      = exMapM contactOfJson [] :=
  ((C5_amended_missing_key_fallback [("data", Json.arr [])] rfl).2 [] rfl).1

/-- Claim C6 (counterexample): `get_contacts` with `limit = 1` against a
payload of two contacts returns both — the returned count exceeds the
requested limit, because no client-side truncation exists. -/
theorem C6_counterexample_limit_exceeded :
    get_contacts 1 (.ok twoContactsPayload) = .ok [{ id := 1 }, { id := 2 }]
    ∧ ((2:Int) > 1) := ⟨rfl, by norm_num⟩

/-- Claim C6 (amended): the operation layer forwards the limit in the
request but never truncates the response: the returned list has exactly one
entry per element of the payload's entity list (whatever the limit), the
result is entirely independent of the limit argument, and `search_tasks`
takes no limit at all. -/
theorem C6_amended_no_truncation :
    (∀ (limit : Int) (fields : List (String × Json)) (xs : List Json),
      (Json.obj fields).getKey "contacts" = some (Json.arr xs) →
      ∀ cs, get_contacts limit (.ok (Json.obj fields)) = .ok cs →
        cs.length = xs.length)
    ∧ (∀ (limit limit2 : Int) (r : Except PyError Json),
      get_contacts limit r = get_contacts limit2 r)
    ∧ (∀ (q : String) (pid aid : Option Int) (st : String)
        (fields : List (String × Json)) (xs : List Json),
      (Json.obj fields).getKey "tasks" = some (Json.arr xs) →
      ∀ ts, search_tasks q pid aid st (.ok (Json.obj fields)) = .ok ts →
        ts.length = xs.length) := by
  refine ⟨?_, ?_, ?_⟩
  · intro limit fields xs h cs hcs
    unfold get_contacts get_contacts_list extractEntityList at hcs
    simp only [Json.getD, h] at hcs
    exact exMapM_length contactOfJson xs cs hcs
  · intro limit limit2 r
    cases r <;> rfl
  · intro q pid aid st fields xs h ts hts
    unfold search_tasks search_tasks_list extractEntityList at hts
    simp only [Json.getD, h] at hts
    exact exMapM_length taskOfJson xs ts hts

/-- Witness for C6 (amended) at the two-contact payload: two payload
elements, two returned contacts. -/
theorem C6_amended_no_truncation_witness :
    ([({ id := 1 } : Models.Contact), { id := 2 }]).length
      = ([Json.obj [("id", Json.num 1)], Json.obj [("id", Json.num 2)]]).length :=
  C6_amended_no_truncation.1 5
    [("contacts", Json.arr [Json.obj [("id", Json.num 1)], Json.obj [("id", Json.num 2)]])]
    [Json.obj [("id", Json.num 1)], Json.obj [("id", Json.num 2)]] rfl
    [{ id := 1 }, { id := 2 }] rfl

/-- Claim C7: the serialized list-tool output is the JSON dump of the
returned tasks — one array element per task, in input order — followed by
exactly one of two suffixes: the total-found footer with the exact count
when the returned count is below the requested limit, and the more-results
hint (naming the page when one was supplied, else the offset) when the
count reaches the limit. -/
theorem C7_list_output_dichotomy (dump : Models.Task → String) (v : TaskListRequest)
    (tasks : List Models.Task) :
    ((tasks.length : Int) < v.limit →
      list_tasks_render dump v tasks
        = jsonDumpList (tasks.map dump) ++ "\n\nВсего найдено: "
          ++ toString tasks.length ++ " задач(и)")
    ∧ (v.limit ≤ (tasks.length : Int) →
      list_tasks_render dump v tasks
        = jsonDumpList (tasks.map dump) ++ "\n\nПоказаны " ++ toString tasks.length
          ++ " результатов (лимит: " ++ toString v.limit ++ ")"
          ++ (if optIntTruthy v.page then ", страница " ++ toString (v.page.getD 0)
              else ", смещение " ++ toString v.toPaginationMixin.get_offset)
          ++ ". Используйте параметры offset/page для получения следующих результатов.") := by
  constructor
  · intro h
    simp only [list_tasks_render]
    rw [if_neg (not_le.mpr h)]
  · intro h
    simp only [list_tasks_render]
    rw [if_pos h]

/-- Witness for C7: the spec scenario — limit 20, two returned tasks —
yields both tasks in input order followed by the `Всего найдено: 2` footer
and no more-results hint. -/
theorem C7_list_output_dichotomy_witness :
    list_tasks_render (fun t => "  " ++ t.name) { limit := 20 } scenarioTasks
      = "[\n  Задача 1,\n  Задача 2\n]\n\nВсего найдено: 2 задач(и)" := by
  have h := (C7_list_output_dichotomy (fun t => "  " ++ t.name) { limit := 20 }
    scenarioTasks).1 (by decide)
  rw [h]
  rfl

/-- Every branch of a tool's `except` ladder converts the exception to a
returned string: no error value survives `applyCatches`. -/
theorem applyCatches_ok (style : CatchStyle) (ctx : String)
    (r : Except PyError String) : ∃ s, applyCatches style ctx r = .ok s := by
  cases r with
  | ok s => exact ⟨s, rfl⟩
  | error e => cases style <;> cases e <;> exact ⟨_, rfl⟩

/-- Claim C3: each of the twelve tool handlers returns a string for every
input and every outcome of the layers below it — any validation error,
transport error or other exception carried by the operation call is caught
and converted; no exception escapes the tool boundary. -/
theorem C3_tools_never_raise :
    (∀ pid aid st off lim pg apiInit call dump,
      ∃ s, list_tasks pid aid st off lim pg apiInit call dump = .ok s)
    ∧ (∀ off lim pg ic apiInit call render,
      ∃ s, list_contacts off lim pg ic apiInit call render = .ok s)
    ∧ (∀ cid apiInit call render,
      ∃ s, get_contact_details cid apiInit call render = .ok s)
    ∧ (∀ (α : Type) (cid : Int) flds apiInit
        (call : EntityByIdRequest → Except PyError α) render,
      ∃ s, get_comment cid flds apiInit call render = .ok s)
    ∧ (∀ (α : Type) (fid : Int) flds apiInit
        (call : EntityByIdRequest → Except PyError α) render,
      ∃ s, get_file fid flds apiInit call render = .ok s)
    ∧ (∀ (α : Type) (pjid : Int) flds apiInit
        (call : EntityByIdRequest → Except PyError α) render,
      ∃ s, get_project pjid flds apiInit call render = .ok s)
    ∧ (∀ (α : Type) (uid : Int) flds apiInit
        (call : EntityByIdRequest → Except PyError α) render,
      ∃ s, get_user uid flds apiInit call render = .ok s)
    ∧ (∀ (α : Type) off lim pg apiInit
        (call : PaginationMixin → Except PyError (List α)) render,
      ∃ s, list_employees off lim pg apiInit call render = .ok s)
    ∧ (∀ (α : Type) off lim pg tid pjid apiInit
        (call : FileListRequest → Except PyError (List α)) render,
      ∃ s, list_files off lim pg tid pjid apiInit call render = .ok s)
    ∧ (∀ (α : Type) off lim pg tid pjid apiInit
        (call : FileListRequest → Except PyError (List α)) render,
      ∃ s, list_comments off lim pg tid pjid apiInit call render = .ok s)
    ∧ (∀ (α : Type) off lim pg apiInit
        (call : PaginationMixin → Except PyError (List α)) render,
      ∃ s, list_reports off lim pg apiInit call render = .ok s)
    ∧ (∀ (α : Type) off lim pg apiInit
        (call : PaginationMixin → Except PyError (List α)) render,
      ∃ s, list_processes off lim pg apiInit call render = .ok s) := by
  refine ⟨?_, ?_, ?_, ?_, ?_, ?_, ?_, ?_, ?_, ?_, ?_, ?_⟩ <;> intros <;>
    first
      | exact applyCatches_ok _ _ _
      | (simp only [get_comment, get_file, get_project, get_user, toolInvoke];
         exact applyCatches_ok _ _ _)

/-- A limit outside `[1, 100]` puts the limit bound error into the
pagination error list, so the list is non-empty. -/
theorem paginationErrors_ne_nil_of_limit (off lim : Int) (pg : Option Int)
    (h : lim < 1 ∨ 100 < lim) : paginationErrors off lim pg ≠ [] := by
  unfold paginationErrors
  rcases h with h | h
  · rw [if_pos h]
    simp
  · rw [if_pos h]
    simp

/-- Any of the claim C4 bound violations makes the `TaskListRequest` field
error list non-empty. -/
theorem taskListRequestErrors_ne_nil (pid aid : Option Int) (st : String)
    (off lim : Int) (pg : Option Int)
    (h : lim < 1 ∨ 100 < lim ∨ (∃ n, pid = some n ∧ n < 1)
      ∨ (["active", "completed", "all"].contains st = false)) :
    taskListRequestErrors pid aid st off lim pg ≠ [] := by
  intro hc
  simp only [taskListRequestErrors, List.append_eq_nil] at hc
  obtain ⟨⟨⟨hpag, hpid⟩, haid⟩, hst⟩ := hc
  rcases h with h | h | ⟨n, rfl, hn⟩ | h
  · exact paginationErrors_ne_nil_of_limit off lim pg (Or.inl h) hpag
  · exact paginationErrors_ne_nil_of_limit off lim pg (Or.inr h) hpag
  · rw [optIdErrors, if_pos hn] at hpid
    exact List.cons_ne_nil _ _ hpid
  · rw [statusErrors, if_neg (by rw [h]; simp)] at hst
    exact List.cons_ne_nil _ _ hst

/-- A `TaskListRequest` validation failure makes `list_tasks` return the
prefixed validation message, without ever invoking the operation call. -/
theorem list_tasks_validation_error (pid aid : Option Int) (st : String)
    (off lim : Int) (pg : Option Int) (apiInit : Bool)
    (call : TaskListRequest → Except PyError (List Models.Task))
    (dump : Models.Task → String)
    (h : taskListRequestErrors pid aid st off lim pg ≠ []) :
    list_tasks pid aid st off lim pg apiInit call dump
      = .ok ("Ошибка валидации: "
          ++ validationMessage (taskListRequestErrors pid aid st off lim pg)) := by
  unfold list_tasks toolInvoke validate_input_task_list
  rw [if_neg h]
  rfl

/-- Claim C4: out-of-bounds inputs short-circuit before any network call —
the tool (and the task resource) return a formatted validation / invalid-ID
message, and the result is independent of the operation-layer call, which
is therefore never invoked. -/
theorem C4_invalid_input_short_circuits :
    (∀ pid aid st off lim pg apiInit
      (call call' : TaskListRequest → Except PyError (List Models.Task))
      (dump dump' : Models.Task → String),
      (lim < 1 ∨ 100 < lim) →
      list_tasks pid aid st off lim pg apiInit call dump
          = .ok ("Ошибка валидации: "
              ++ validationMessage (taskListRequestErrors pid aid st off lim pg))
        ∧ list_tasks pid aid st off lim pg apiInit call dump
          = list_tasks pid aid st off lim pg apiInit call' dump')
    ∧ (∀ aid st off lim pg apiInit
      (call call' : TaskListRequest → Except PyError (List Models.Task))
      (dump dump' : Models.Task → String) (n : Int),
      n < 1 →
      list_tasks (some n) aid st off lim pg apiInit call dump
          = .ok ("Ошибка валидации: "
              ++ validationMessage (taskListRequestErrors (some n) aid st off lim pg))
        ∧ list_tasks (some n) aid st off lim pg apiInit call dump
          = list_tasks (some n) aid st off lim pg apiInit call' dump')
    ∧ (∀ pid aid st off lim pg apiInit
      (call call' : TaskListRequest → Except PyError (List Models.Task))
      (dump dump' : Models.Task → String),
      ["active", "completed", "all"].contains st = false →
      list_tasks pid aid st off lim pg apiInit call dump
          = .ok ("Ошибка валидации: "
              ++ validationMessage (taskListRequestErrors pid aid st off lim pg))
        ∧ list_tasks pid aid st off lim pg apiInit call dump
          = list_tasks pid aid st off lim pg apiInit call' dump')
    ∧ (∀ (s : String) (call call' : Int → Except PyError Models.Task)
      (render render' : Models.Task → String),
      parsePyInt s = none →
      get_task_details s call render = "Неверный ID задачи: " ++ s
        ∧ get_task_details s call render = get_task_details s call' render')
    ∧ (∀ (cid : Int) apiInit (call call' : Int → Except PyError Models.Contact)
      (render render' : Models.Contact → String),
      cid < 1 →
      get_contact_details cid apiInit call render
          = .ok (validationMessage
              [fieldErr "contact_id" "Input should be greater than or equal to 1"])
        ∧ get_contact_details cid apiInit call render
          = get_contact_details cid apiInit call' render') := by
  refine ⟨?_, ?_, ?_, ?_, ?_⟩
  · intro pid aid st off lim pg apiInit call call' dump dump' h
    have hne := taskListRequestErrors_ne_nil pid aid st off lim pg
      (by rcases h with h | h; exacts [Or.inl h, Or.inr (Or.inl h)])
    have h1 := list_tasks_validation_error pid aid st off lim pg apiInit call dump hne
    have h2 := list_tasks_validation_error pid aid st off lim pg apiInit call' dump' hne
    exact ⟨h1, h1.trans h2.symm⟩
  · intro aid st off lim pg apiInit call call' dump dump' n hn
    have hne := taskListRequestErrors_ne_nil (some n) aid st off lim pg
      (Or.inr (Or.inr (Or.inl ⟨n, rfl, hn⟩)))
    have h1 := list_tasks_validation_error (some n) aid st off lim pg apiInit call dump hne
    have h2 := list_tasks_validation_error (some n) aid st off lim pg apiInit call' dump' hne
    exact ⟨h1, h1.trans h2.symm⟩
  · intro pid aid st off lim pg apiInit call call' dump dump' h
    have hne := taskListRequestErrors_ne_nil pid aid st off lim pg
      (Or.inr (Or.inr (Or.inr h)))
    have h1 := list_tasks_validation_error pid aid st off lim pg apiInit call dump hne
    have h2 := list_tasks_validation_error pid aid st off lim pg apiInit call' dump' hne
    exact ⟨h1, h1.trans h2.symm⟩
  · intro s call call' render render' h
    constructor
    · unfold get_task_details
      rw [h]
    · unfold get_task_details
      rw [h]
  · intro cid apiInit call call' render render' h
    have key : ∀ (c : Int → Except PyError Models.Contact)
        (r : Models.Contact → String),
        get_contact_details cid apiInit c r
          = .ok (validationMessage
              [fieldErr "contact_id" "Input should be greater than or equal to 1"]) := by
      intro c r
      unfold get_contact_details toolInvoke validate_input_contact_details
      rw [if_pos h]
      rfl
    exact ⟨key call render, (key call render).trans (key call' render').symm⟩

/-- Witness for C4: `limit = 0` short-circuits `list_tasks` with the
validation message, and the non-numeric id `"abc"` makes the task resource
return the invalid-ID message — in both cases independently of the
operation call. -/
theorem C4_invalid_input_short_circuits_witness :
    list_tasks none none "active" 0 0 none true (fun _ => .ok []) (fun _ => "")
        = .ok ("Ошибка валидации: "
            ++ validationMessage (taskListRequestErrors none none "active" 0 0 none))
      ∧ get_task_details "abc" (fun _ => .ok { id := 1 }) (fun _ => "")
        = "Неверный ID задачи: abc" :=
  ⟨(C4_invalid_input_short_circuits.1 none none "active" 0 0 none true
      (fun _ => .ok []) (fun _ => .ok []) (fun _ => "") (fun _ => "")
      (Or.inl (by norm_num))).1,
   (C4_invalid_input_short_circuits.2.2.2.1 "abc"
      (fun _ => .ok { id := 1 }) (fun _ => .ok { id := 1 })
      (fun _ => "") (fun _ => "") (by decide)).1⟩

/-- Claim C9 (counterexample): `add_contact` called with only a name sends
the unset optional fields anyway — the wire body carries `email`, `phone`,
`company` and `position` keys with empty-string values, so unset fields are
not omitted. -/
theorem C9_counterexample_add_contact_sends_unset :
    (add_contact_request "Иван Петров" "" "" "" "").data
      = some (Json.obj [("name", Json.str "Иван Петров"), ("email", Json.str ""),
          ("phone", Json.str ""), ("company", Json.str ""), ("position", Json.str "")])
    ∧ bodyHasKey (add_contact_request "Иван Петров" "" "" "" "") "email" = true :=
  ⟨rfl, rfl⟩

/-- Claim C9 (amended): `create_task` includes each of `project`,
`assignee` and `endDatePlan` exactly when the corresponding argument is
supplied and truthy, and serializes no null values; `add_contact` always
sends its five keys — unset optionals go over the wire as empty strings
rather than being omitted, though never as nulls. -/
theorem C9_amended_omit_unset (n d : String) (pid aid : Option Int) (pr : String)
    (dl : Option String) (cn ce cp cc cpo : String) :
    bodyHasKey (create_task_request n d pid aid pr dl) "project" = optIntTruthy pid
    ∧ bodyHasKey (create_task_request n d pid aid pr dl) "assignee" = optIntTruthy aid
    ∧ bodyHasKey (create_task_request n d pid aid pr dl) "endDatePlan" = optStrTruthy dl
    ∧ bodyHasNull (create_task_request n d pid aid pr dl) = false
    ∧ bodyKeys (add_contact_request cn ce cp cc cpo)
      = ["name", "email", "phone", "company", "position"]
    ∧ bodyHasNull (add_contact_request cn ce cp cc cpo) = false := by
  refine ⟨?_, ?_, ?_, ?_, rfl, rfl⟩ <;>
    cases hp : optIntTruthy pid <;> cases ha : optIntTruthy aid <;>
      cases hd : optStrTruthy dl <;>
    simp [bodyHasKey, bodyKeys, bodyHasNull, create_task_request, create_task_body,
      hp, ha, hd]
